import Mathlib

/-!
Verification of the startup layer of the rawgl engine (src/main.cpp):
option parsing, backend resolution policy, and lifecycle orchestration.

Machine integers (`int` fields written by `sscanf`/`atoi`) are modelled as
unbounded `Int`: the startup layer performs no arithmetic on them beyond
parsing, and no claim involves values near the `int` range, so overflow
(undefined behaviour in the source) is outside the modelled domain.
C strings (`char *` argument values) are modelled as `List Char`; a real
argv string never contains the NUL character, which appears as an explicit
hypothesis where it matters.
-/

namespace Rawgl

/-- The renderer kinds `GRAPHICS_ORIGINAL`, `GRAPHICS_SOFTWARE`,
`GRAPHICS_GL` used by src/main.cpp. -/
inductive GraphicsType where
  | original
  | software
  | gl
deriving DecidableEq, Repr

/-- Modelled from the spec: the content-edition enumeration
`Resource::DataType` lives in resource.h, which is not part of the given
sources; main.cpp names only `DT_15TH_EDITION`, `DT_20TH_EDITION` and
`DT_3DO` and treats every other edition uniformly. The legacy editions
(DOS variants, Amiga, Atari ports) follow the spec's glossary. -/
inductive DataType where
  | DT_DOS
  | DT_AMIGA
  | DT_ATARI
  | DT_WIN31
  | DT_15TH_EDITION
  | DT_20TH_EDITION
  | DT_3DO
deriving DecidableEq, Repr

/-- `getGraphicsType` (src/main.cpp lines 73-82): the default renderer for
a detected edition — GL for the 15th/20th anniversary editions and the 3DO
port, ORIGINAL otherwise. -/
def getGraphicsType : DataType → GraphicsType
  | .DT_15TH_EDITION => .gl
  | .DT_20TH_EDITION => .gl
  | .DT_3DO => .gl
  | _ => .original

/-- The sentinel-terminated renderer-name table `GRAPHICS`
(src/main.cpp lines 42-50). -/
def GRAPHICS : List (String × GraphicsType) :=
  [("original", .original), ("software", .software), ("gl", .gl)]

/-- The part of main's local state that backend resolution reads and
writes: `graphicsType`, `dm.opengl`, `defaultGraphics` and the process-wide
flag `Graphics::_use565`. -/
structure BackendConfig where
  graphicsType : GraphicsType
  opengl : Bool
  defaultGraphics : Bool
  use565 : Bool
deriving DecidableEq, Repr

/-- Initial values (src/main.cpp lines 52-53, 108-117):
`graphicsType = GRAPHICS_GL`, `dm.opengl = (graphicsType == GRAPHICS_GL)`,
`defaultGraphics = true`, `Graphics::_use565 = false`. -/
def initBackendConfig : BackendConfig :=
  { graphicsType := .gl
    opengl := decide (GraphicsType.gl = GraphicsType.gl)
    defaultGraphics := true
    use565 := false }

/-- Processing of one `--render NAME` option (src/main.cpp lines 159-167):
look the name up in the `GRAPHICS` table; on a match set `graphicsType`,
recompute `dm.opengl`, and clear `defaultGraphics`; an unmatched token is
silently ignored. -/
def applyRenderOpt (optarg : String) (c : BackendConfig) : BackendConfig :=
  match GRAPHICS.find? (fun p => p.1 == optarg) with
  | some p =>
      { c with graphicsType := p.2
               opengl := decide (p.2 = .gl)
               defaultGraphics := false }
  | none => c

/-- Backend state after the option loop, given the `--render` argument
values in order (other options do not touch these fields). -/
def parsedBackendConfig (renderArgs : List String) : BackendConfig :=
  renderArgs.foldl (fun c a => applyRenderOpt a c) initBackendConfig

/-- First resolution step (src/main.cpp lines 193-197): if no explicit
renderer was chosen, take the edition default and recompute `dm.opengl`. -/
def applyDefaultGraphics (c : BackendConfig) (edition : DataType) : BackendConfig :=
  if c.defaultGraphics then
    { c with graphicsType := getGraphicsType edition
             opengl := decide (getGraphicsType edition = .gl) }
  else c

/-- Second resolution step (src/main.cpp lines 198-201): if the renderer is
not GL and the edition is the 3DO port, force SOFTWARE and set
`Graphics::_use565 = true`; `dm.opengl` is not touched here. -/
def apply3DOOverride (c : BackendConfig) (edition : DataType) : BackendConfig :=
  if c.graphicsType ≠ .gl ∧ edition = .DT_3DO then
    { c with graphicsType := .software, use565 := true }
  else c

/-- Backend resolution after engine construction
(src/main.cpp lines 193-201): the default step followed by the 3DO
override step. -/
def resolveBackend (c : BackendConfig) (edition : DataType) : BackendConfig :=
  apply3DOOverride (applyDefaultGraphics c edition) edition

/-- The concrete rendering implementations main.cpp can construct:
`GraphicsSoft_create()` and (when `USE_GL` is defined) `GraphicsGL_create()`. -/
inductive GraphicsImpl where
  | soft
  | glImpl
deriving DecidableEq, Repr

/-- `createGraphics` (src/main.cpp lines 56-71). The `ORIGINAL` case sets
the process-wide flag `Graphics::_is1991` and falls through to the
`SOFTWARE` case; the `GL` case returns a GL backend only when the build has
`USE_GL` defined, otherwise control falls out of the switch and the
function returns the null pointer (modelled as `none`). `is1991` is the
flag's value before the call (`false` at program start, line 52);
the returned pair is (backend instance, flag value after the call). -/
def createGraphics (useGLBuild : Bool) (t : GraphicsType) (is1991 : Bool) :
    Option GraphicsImpl × Bool :=
  match t with
  | .original => (some .soft, true)
  | .software => (some .soft, is1991)
  | .gl => (if useGLBuild then some .glImpl else none, is1991)

/-! ### Scaler parsing (`parseScaler`, src/main.cpp lines 84-99) -/

/-- The NUL character terminating C strings. -/
def NUL : Char := '\x00'

/-- `strchr(name, '@')` followed by `*sep = 0` (src/main.cpp lines 90-92):
if the string contains an `@`, split it at the first one into the prefix
(the name, now NUL-terminated at the `@` position) and the suffix after
the `@`; otherwise report no separator. -/
def strchrSplitAt (cs : List Char) : Option (List Char × List Char) :=
  if '@' ∈ cs then
    some (cs.takeWhile (fun c => c ≠ '@'), (cs.dropWhile (fun c => c ≠ '@')).tail)
  else none

/-- The 31 characters `strncpy(dst, src, sizeof(dst) - 1)` writes into
`dst[0..30]` (src/main.cpp line 93): the first 31 characters of the source
string, NUL-padded when the source is shorter. -/
def strncpyChars (src : List Char) (n : Nat) : List Char :=
  src.take n ++ List.replicate (n - src.length) NUL

/-- The string stored in a character buffer: its characters up to the
first NUL. -/
def cstr (buf : List Char) : List Char :=
  buf.takeWhile (fun c => c ≠ NUL)

/-- `isspace` in the C locale, as used by `atoi` / `strtol`. -/
def isCSpace (c : Char) : Bool :=
  c = ' ' ∨ c = '\t' ∨ c = '\n' ∨ c = '\x0b' ∨ c = '\x0c' ∨ c = '\r'

/-- Value of a digit run read most-significant first. -/
def digitsToNat (ds : List Char) : Nat :=
  ds.foldl (fun n c => 10 * n + (c.toNat - '0'.toNat)) 0

/-- `atoi` (used at src/main.cpp lines 97 and 157): skip leading
whitespace, accept an optional sign, then read a maximal digit run; the
result is 0 when no digits follow. Overflow is undefined behaviour in C
and outside the modelled domain, so the value is an unbounded `Int`. -/
def atoi (cs : List Char) : Int :=
  let cs1 := cs.dropWhile isCSpace
  match cs1 with
  | '-' :: rest => -(digitsToNat (rest.takeWhile Char.isDigit) : Int)
  | '+' :: rest => (digitsToNat (rest.takeWhile Char.isDigit) : Int)
  | _ => (digitsToNat (cs1.takeWhile Char.isDigit) : Int)

/-- The `Scaler` struct (src/main.cpp lines 84-87): a 32-byte character
buffer holding the name, and an integer factor. -/
structure Scaler where
  name : List Char
  factor : Int
deriving DecidableEq, Repr

/-- Initial scaler state (src/main.cpp lines 114-116): `scaler.name[0] = 0`
(empty stored name) and `scaler.factor = 1`. The buffer is modelled by the
32 bytes it holds; beyond index 0 the bytes are unspecified in the source,
taken as NUL here. -/
def scalerInit : Scaler :=
  { name := List.replicate 32 NUL, factor := 1 }

/-- `parseScaler` (src/main.cpp lines 89-99): when the argument contains an
`@`, copy the prefix into the 32-byte name buffer with
`strncpy(s->name, name, 31)` followed by `s->name[31] = 0`, and set the
factor to `atoi` of the suffix; when it does not, leave the struct
untouched. -/
def parseScaler (arg : List Char) (s : Scaler) : Scaler :=
  match strchrSplitAt arg with
  | some (pre, post) =>
      { name := strncpyChars pre 31 ++ [NUL], factor := atoi post }
  | none => s

/-! ### Window geometry parsing (src/main.cpp line 170) -/

/-- One `%d` conversion of `sscanf`: skip leading whitespace, accept an
optional sign, then require at least one digit; on success return the
value and the unconsumed remainder, on failure (no digit) report a
matching failure. -/
def scanDec (cs : List Char) : Option (Int × List Char) :=
  let cs1 := cs.dropWhile isCSpace
  match cs1 with
  | '-' :: rest =>
      let ds := rest.takeWhile Char.isDigit
      if ds.isEmpty then none
      else some (-(digitsToNat ds : Int), rest.dropWhile Char.isDigit)
  | '+' :: rest =>
      let ds := rest.takeWhile Char.isDigit
      if ds.isEmpty then none
      else some ((digitsToNat ds : Int), rest.dropWhile Char.isDigit)
  | _ =>
      let ds := cs1.takeWhile Char.isDigit
      if ds.isEmpty then none
      else some ((digitsToNat ds : Int), cs1.dropWhile Char.isDigit)

/-- `sscanf(optarg, "%dx%d", &dm.width, &dm.height)`
(src/main.cpp line 170). `w` and `h` are the fields' values before the
call; the result is (number of conversions assigned, width after, height
after). `sscanf` assigns each converted value as soon as its conversion
succeeds, so a string matching only the first `%d` still overwrites the
width. The literal `x` matches exactly one `x` character. -/
def sscanfWxH (cs : List Char) (w h : Int) : Nat × Int × Int :=
  match scanDec cs with
  | none => (0, w, h)
  | some (w1, rest) =>
    match rest with
    | 'x' :: rest2 =>
      match scanDec rest2 with
      | none => (1, w1, h)
      | some (h1, _) => (2, w1, h1)
    | _ => (1, w1, h)

/-! ### Lifecycle orchestration (src/main.cpp lines 192-214) -/

/-- The orchestration events of one run of `main`, in the order the
bootstrap code performs them. -/
inductive Ev where
  | engineNew
  | backendResolve
  | graphicsCreate
  | stubCreate
  | stubInit
  | engineWire
  | engineSetup
  | runLoop
  | engineFinish
  | engineDelete
  | stubFini
  | stubDelete
deriving DecidableEq, Repr

/-- The event sequence of `main` after option parsing
(src/main.cpp lines 192-214): construct the engine, resolve the backend
from the detected edition, construct the graphics backend and the SDL
system stub, initialize and wire them, run until quit, then
`e->finish(); delete e; stub->fini(); delete stub;`. -/
def mainTrace : List Ev :=
  [.engineNew, .backendResolve, .graphicsCreate, .stubCreate, .stubInit,
   .engineWire, .engineSetup, .runLoop,
   .engineFinish, .engineDelete, .stubFini, .stubDelete]

/-! ### Helper lemmas -/

/-- The parser invariant: `dm.opengl` agrees with `graphicsType == GRAPHICS_GL`. -/
def openglConsistent (c : BackendConfig) : Prop :=
  c.opengl = decide (c.graphicsType = .gl)

theorem openglConsistent_init : openglConsistent initBackendConfig := rfl

theorem openglConsistent_applyRenderOpt (a : String) (c : BackendConfig)
    (h : openglConsistent c) : openglConsistent (applyRenderOpt a c) := by
  unfold applyRenderOpt
  cases GRAPHICS.find? (fun p => p.1 == a) with
  | none => exact h
  | some p => rfl

theorem openglConsistent_parsed (args : List String) :
    openglConsistent (parsedBackendConfig args) := by
  unfold parsedBackendConfig
  have hgen : ∀ (l : List String) (c : BackendConfig), openglConsistent c →
      openglConsistent (l.foldl (fun c a => applyRenderOpt a c) c) := by
    intro l
    induction l with
    | nil => intro c h; exact h
    | cons a as ih =>
        intro c h
        exact ih _ (openglConsistent_applyRenderOpt a c h)
  exact hgen args initBackendConfig openglConsistent_init

theorem openglConsistent_applyDefault (c : BackendConfig) (ed : DataType)
    (h : openglConsistent c) : openglConsistent (applyDefaultGraphics c ed) := by
  unfold applyDefaultGraphics
  split
  · rfl
  · exact h

theorem openglConsistent_apply3DO (c : BackendConfig) (ed : DataType)
    (h : openglConsistent c) : openglConsistent (apply3DOOverride c ed) := by
  unfold apply3DOOverride
  split
  · next hcond =>
      show c.opengl = decide (GraphicsType.software = GraphicsType.gl)
      rw [h]
      simp [hcond.1]
  · exact h

theorem openglConsistent_resolve (c : BackendConfig) (ed : DataType)
    (h : openglConsistent c) : openglConsistent (resolveBackend c ed) :=
  openglConsistent_apply3DO _ _ (openglConsistent_applyDefault c ed h)

theorem strchrSplitAt_eq_some {arg pre post : List Char}
    (heq : strchrSplitAt arg = some (pre, post)) :
    '@' ∈ arg ∧ pre = arg.takeWhile (fun c => c ≠ '@') ∧
      post = (arg.dropWhile (fun c => c ≠ '@')).tail := by
  unfold strchrSplitAt at heq
  split at heq
  · next hmem =>
      obtain ⟨h1, h2⟩ := Prod.mk.injEq .. ▸ Option.some.inj heq
      exact ⟨hmem, h1.symm, h2.symm⟩
  · cases heq

theorem nul_not_mem_takeWhile {arg : List Char} (hnul : NUL ∉ arg) :
    NUL ∉ arg.takeWhile (fun c => c ≠ '@') :=
  fun hmem => hnul ((List.takeWhile_prefix _).subset hmem)

theorem takeWhile_append_of_all (p : Char → Bool) (l1 l2 : List Char)
    (h : ∀ a ∈ l1, p a = true) :
    (l1 ++ l2).takeWhile p = l1 ++ l2.takeWhile p := by
  induction l1 with
  | nil => rfl
  | cons a l ih =>
      rw [List.cons_append, List.takeWhile_cons, h a (List.mem_cons_self a l),
        if_pos rfl, ih (fun b hb => h b (List.mem_cons_of_mem a hb)),
        List.cons_append]

theorem takeWhile_nuls (k : Nat) :
    (List.replicate k NUL ++ [NUL]).takeWhile (fun c => c ≠ NUL) = [] := by
  cases k with
  | zero => rfl
  | succ n => rfl

/-- The string stored by `strncpy(dst, src, 31); dst[31] = 0;` is the
first 31 characters of the source (when the source, a C string, has no
embedded NUL). -/
theorem cstr_store (pre : List Char) (h : NUL ∉ pre) :
    cstr (strncpyChars pre 31 ++ [NUL]) = pre.take 31 := by
  unfold cstr strncpyChars
  rw [List.append_assoc,
    takeWhile_append_of_all _ (pre.take 31) _ ?hall, takeWhile_nuls,
    List.append_nil]
  case hall =>
    intro a ha
    have hmem : a ∈ pre := List.take_subset 31 pre ha
    simp only [decide_eq_true_eq]
    exact fun hEq => h (hEq ▸ hmem)

/-! ### Claim C1: the 3DO override versus an explicit GL request -/

/-- Claim C1, counterexample: with an explicit `--render gl` and detected
edition 3DO, the override does NOT fire — the resolved backend stays GL
and `Graphics::_use565` stays false, contrary to the claim that the
resolved backend is SOFTWARE with the 565 flag set. The guard at
src/main.cpp line 198 (`graphicsType != GRAPHICS_GL`) excludes exactly
this case. -/
theorem explicit_gl_request_not_overridden_on_3DO :
    ¬ ((resolveBackend (parsedBackendConfig ["gl"]) .DT_3DO).graphicsType =
          GraphicsType.software ∧
       (resolveBackend (parsedBackendConfig ["gl"]) .DT_3DO).use565 = true) := by
  decide

/-- Claim C1 (amended): the 3DO override fires only when the backend in
force before the override step is not GL: an explicit request for a
non-GL renderer on the 3DO edition is forced to SOFTWARE with
`use565 = true`, while an explicit GL request is honoured unchanged. -/
theorem override_fires_only_for_non_gl (c : BackendConfig)
    (hexp : c.defaultGraphics = false) :
    resolveBackend c .DT_3DO =
      (if c.graphicsType = .gl then c
       else { c with graphicsType := .software, use565 := true }) := by
  obtain ⟨gt, og, dg, u5⟩ := c
  cases hexp
  cases gt <;> rfl

/-- Witness for `override_fires_only_for_non_gl` at the parsed state of
`--render original` on the 3DO edition. -/
theorem override_fires_only_for_non_gl_witness :
    resolveBackend (parsedBackendConfig ["original"]) .DT_3DO =
      (if (parsedBackendConfig ["original"]).graphicsType = .gl then
        parsedBackendConfig ["original"]
       else { parsedBackendConfig ["original"] with
                graphicsType := .software, use565 := true }) :=
  override_fires_only_for_non_gl (parsedBackendConfig ["original"]) (by decide)

/-! ### Claim C2: teardown order -/

/-- Claim C2, counterexample: in the teardown sequence of `main`
(src/main.cpp lines 210-213) the engine is finished and deleted BEFORE the
platform subsystem (the SDL system stub) is shut down and deleted — the
claim that the platform subsystem is released first is false. -/
theorem stub_not_released_before_engine :
    ¬ (mainTrace.indexOf Ev.stubFini < mainTrace.indexOf Ev.engineDelete ∧
       mainTrace.indexOf Ev.stubDelete < mainTrace.indexOf Ev.engineDelete) := by
  decide

/-- Claim C2 (amended): at teardown the ENGINE is released first
(`e->finish(); delete e;`) and the platform subsystem after it
(`stub->fini(); delete stub;`), in that order, after the run loop ends. -/
theorem teardown_engine_then_stub :
    mainTrace.indexOf Ev.runLoop < mainTrace.indexOf Ev.engineFinish ∧
    mainTrace.indexOf Ev.engineFinish < mainTrace.indexOf Ev.engineDelete ∧
    mainTrace.indexOf Ev.engineDelete < mainTrace.indexOf Ev.stubFini ∧
    mainTrace.indexOf Ev.stubFini < mainTrace.indexOf Ev.stubDelete := by
  decide

/-! ### Claim C3: window geometry parsing -/

/-- Claim C3, counterexample: the geometry string `800` fails to match two
integers (`sscanf` returns 1), yet the width field is overwritten with 800
while the height keeps its prior value — a partial update of one field,
contrary to the claim that both fields stay unchanged. -/
theorem geometry_single_integer_updates_width :
    (sscanfWxH ("800".data) 640 400).1 ≠ 2 ∧
    (sscanfWxH ("800".data) 640 400).2.1 ≠ 640 ∧
    sscanfWxH ("800".data) 640 400 = (1, 800, 400) := by
  decide

/-- Claim C3 (amended): geometry parsing never updates the height without
the width: a string that fails to match even the first integer leaves both
fields unchanged; a string that matches the first integer but not the
rest updates the width only; a string matching both updates both. -/
theorem geometry_height_never_updated_alone (cs : List Char) (w h : Int) :
    sscanfWxH cs w h = (0, w, h) ∨
    ((sscanfWxH cs w h).1 = 1 ∧ (sscanfWxH cs w h).2.2 = h) ∨
    (sscanfWxH cs w h).1 = 2 := by
  unfold sscanfWxH
  split
  · exact Or.inl rfl
  · split
    · split
      · exact Or.inr (Or.inl ⟨rfl, rfl⟩)
      · exact Or.inr (Or.inr rfl)
    · exact Or.inr (Or.inl ⟨rfl, rfl⟩)

/-! ### Claim C4: the GL-surface flag tracks the resolved backend -/

/-- Claim C4: for every sequence of `--render` arguments and every
detected edition, after resolution (including the 3DO override step)
`dm.opengl` equals `(graphicsType == GRAPHICS_GL)`. -/
theorem opengl_flag_tracks_resolved_backend (args : List String)
    (edition : DataType) :
    (resolveBackend (parsedBackendConfig args) edition).opengl =
      decide ((resolveBackend (parsedBackendConfig args) edition).graphicsType =
        GraphicsType.gl) :=
  openglConsistent_resolve _ _ (openglConsistent_parsed args)

/-! ### Claim C5: default backend by edition -/

/-- Claim C5: with no explicit renderer request, resolution yields GL for
the 15th anniversary, 20th anniversary and 3DO editions, and ORIGINAL for
every other edition. -/
theorem default_backend_by_edition (edition : DataType) :
    (resolveBackend (parsedBackendConfig []) edition).graphicsType =
      (if edition = .DT_15TH_EDITION ∨ edition = .DT_20TH_EDITION ∨
          edition = .DT_3DO
       then GraphicsType.gl else GraphicsType.original) := by
  cases edition <;> rfl

/-! ### Claim C6: the scaler-factor invariant -/

/-- Claim C6, counterexample: `--scaler hq2x@0` parses to factor 0
(`atoi("0")`), violating the claimed invariant `factor ≥ 1`;
`parseScaler` stores the `atoi` result without any clamping. -/
theorem scaler_factor_zero_on_at_zero :
    (parseScaler ("hq2x@0".data) scalerInit).factor = 0 ∧
    ¬ (1 ≤ (parseScaler ("hq2x@0".data) scalerInit).factor) := by
  decide

/-- Claim C6 (amended): `factor ≥ 1` is preserved by scaler parsing only
when the argument has no `@` (the prior factor is kept) or the integer
after the first `@` parses to at least 1; arguments such as `name@0`,
`name@-2` or `name@` yield factors below 1. -/
theorem scaler_factor_ge_one (arg : List Char) (s : Scaler)
    (hs : 1 ≤ s.factor)
    (hpost : strchrSplitAt arg = none ∨
      ∃ pre post, strchrSplitAt arg = some (pre, post) ∧ 1 ≤ atoi post) :
    1 ≤ (parseScaler arg s).factor := by
  unfold parseScaler
  rcases hpost with hnone | ⟨pre, post, heq, hge⟩
  · rw [hnone]; exact hs
  · rw [heq]; exact hge

/-- Witness for `scaler_factor_ge_one` at `--scaler hq@3`. -/
theorem scaler_factor_ge_one_witness :
    1 ≤ (parseScaler ("hq@3".data) scalerInit).factor :=
  scaler_factor_ge_one ("hq@3".data) scalerInit (by decide)
    (Or.inr ⟨"hq".data, "3".data, by decide, by decide⟩)

/-! ### Claim C7: scaler parsing, split at the first `@` -/

/-- A 40-character scaler name, longer than the 31 characters the `Scaler`
name buffer can store. -/
def longScalerName : List Char := List.replicate 40 'a'

/-- Claim C7, counterexample: for an argument whose part before the first
`@` is 40 characters long, the stored scaler name is NOT that whole
substring — `strncpy(s->name, name, 31)` keeps only its first 31
characters. -/
theorem scaler_long_name_not_whole_substring :
    strchrSplitAt (longScalerName ++ "@2".data) =
      some (longScalerName, "2".data) ∧
    cstr ((parseScaler (longScalerName ++ "@2".data) scalerInit).name) ≠
      longScalerName := by
  decide

/-- Claim C7 (amended): an argument with no `@` leaves the scaler struct
untouched (default empty name and factor 1 are kept); an argument with an
`@` stores the first (at most) 31 characters of the part before the first
`@` as the name and `atoi` of the part after it as the factor. The
argument, a C string, contains no NUL character. -/
theorem scaler_parse_splits_at_first_at (arg : List Char) (s : Scaler)
    (hnul : NUL ∉ arg) :
    (strchrSplitAt arg = none → parseScaler arg s = s) ∧
    (∀ pre post, strchrSplitAt arg = some (pre, post) →
      cstr (parseScaler arg s).name = pre.take 31 ∧
      (parseScaler arg s).factor = atoi post) := by
  constructor
  · intro hnone
    unfold parseScaler
    rw [hnone]
  · intro pre post heq
    obtain ⟨-, hpre, -⟩ := strchrSplitAt_eq_some heq
    unfold parseScaler
    rw [heq]
    exact ⟨cstr_store pre (hpre ▸ nul_not_mem_takeWhile hnul), rfl⟩

/-- Witness for `scaler_parse_splits_at_first_at` at `--scaler hq@3`. -/
theorem scaler_parse_splits_at_first_at_witness :
    cstr ((parseScaler ("hq@3".data) scalerInit).name) =
      ("hq".data).take 31 ∧
    (parseScaler ("hq@3".data) scalerInit).factor = atoi ("3".data) :=
  (scaler_parse_splits_at_first_at ("hq@3".data) scalerInit (by decide)).2
    ("hq".data) ("3".data) (by decide)

/-! ### Claim C8: the 1991-rendering flag -/

/-- Claim C8: constructing the ORIGINAL backend always sets
`Graphics::_is1991`; constructing SOFTWARE or GL leaves it at its prior
value (false at program start, src/main.cpp line 52). -/
theorem is1991_set_only_by_original (useGLBuild : Bool) (t : GraphicsType)
    (prior : Bool) :
    (createGraphics useGLBuild t prior).2 =
      (if t = .original then true else prior) := by
  cases t <;> rfl

/-! ### Claim C9: GL without build support -/

/-- Claim C9: when the resolved backend is GL but the build lacks
`USE_GL`, `createGraphics` returns no backend instance (the null pointer),
not a fallback backend. -/
theorem gl_without_build_support_yields_none (prior : Bool) :
    (createGraphics false .gl prior).1 = none := rfl

/-! ### Claim C10: scaler name truncation and NUL termination -/

/-- Claim C10: for every scaler argument containing `@`, the stored name
is the first (at most) 31 characters of the part before the first `@`, its
length never exceeds 31, and the 32-byte buffer always contains a NUL
terminator. The argument, a C string, contains no NUL character. -/
theorem scaler_name_truncated_and_terminated (arg : List Char) (s : Scaler)
    (pre post : List Char) (hnul : NUL ∉ arg)
    (heq : strchrSplitAt arg = some (pre, post)) :
    cstr (parseScaler arg s).name = pre.take 31 ∧
    (cstr (parseScaler arg s).name).length ≤ 31 ∧
    NUL ∈ (parseScaler arg s).name := by
  obtain ⟨-, hpre, -⟩ := strchrSplitAt_eq_some heq
  unfold parseScaler
  rw [heq]
  have hstore := cstr_store pre (hpre ▸ nul_not_mem_takeWhile hnul)
  refine ⟨hstore, ?_, ?_⟩
  · rw [hstore, List.length_take]
    exact min_le_left _ _
  · exact List.mem_append_right _ (List.mem_singleton.mpr rfl)

/-- Witness for `scaler_name_truncated_and_terminated` at
`--scaler scale2x@4`. -/
theorem scaler_name_truncated_and_terminated_witness :
    cstr ((parseScaler ("scale2x@4".data) scalerInit).name) =
      ("scale2x".data).take 31 ∧
    (cstr ((parseScaler ("scale2x@4".data) scalerInit).name)).length ≤ 31 ∧
    NUL ∈ (parseScaler ("scale2x@4".data) scalerInit).name :=
  scaler_name_truncated_and_terminated ("scale2x@4".data) scalerInit
    ("scale2x".data) ("4".data) (by decide) (by decide)

end Rawgl
